import Mathlib

/-!
Shallow embedding of the attendance aggregation core of the rekapabsensi
repository (src/attendance): the calendar resolver (ScheduleService,
HolidayService), the per-period attendance store (DailyAttendance together
with AttendanceService.save_attendance / save_bulk_attendance /
get_missing_attendance) and the aggregation engine
(ReportService.generate_class_report / generate_student_report /
_get_school_dates), plus HolidayService.create_holiday / update_holiday.

Modelling conventions:
- Calendar dates are natural numbers counted from a Monday, so that
  the weekday of date `d` (Python date.weekday: 0=Monday .. 6=Sunday)
  is `d % 7` and adding one day is `d + 1`.
- A jp_statuses JSON object is an association list from period-number
  strings to status strings, looked up exactly like dict.get.
- Python float percentages are modelled as rationals; round(x, 2) is
  rounding x*100 to the nearest integer and dividing by 100.
- The database (Django ORM state) is an explicit record of rows; each
  service function takes it as an argument, and writes return a new one.
-/

namespace Rekap

/-- The four valid status codes {H, S, I, A} used throughout the services. -/
def validStatuses : List String := ["H", "S", "I", "A"]

/-- A jp_statuses mapping, e.g. [("1", "H"), ("2", "S"), ...]. -/
abbrev JPMap := List (String × String)

/-- One row of the DaySchedule table (attendance/models.py): weekday
(0=Senin .. 6=Minggu), default_jp_count, is_school_day. -/
structure DaySchedule where
  day_of_week : Nat
  default_jp_count : Nat
  is_school_day : Bool
deriving DecidableEq

/-- One row of the Holiday table (attendance/models.py): date, name,
holiday_type, apply_to_all, the many-to-many classroom id set, description. -/
structure Holiday where
  hdate : Nat
  name : String
  holiday_type : String
  apply_to_all : Bool
  classrooms : List Nat
  description : String
deriving DecidableEq

/-- One row of the Student table: id, owning classroom id, active flag, name. -/
structure Student where
  sid : Nat
  classroom : Nat
  is_active : Bool
  name : String
deriving DecidableEq

/-- One row of the DailyAttendance table: student id, date, the jp_statuses
JSON mapping and the free-text notes.  unique_together = [student, date]. -/
structure DailyAttendance where
  student : Nat
  adate : Nat
  jp_statuses : JPMap
  notes : String
deriving DecidableEq

/-- The relational state the services read and write. -/
structure Db where
  schedules : List DaySchedule
  holidays : List Holiday
  classroomIds : List Nat
  students : List Student
  attendances : List DailyAttendance
deriving DecidableEq

/-- DaySchedule.objects.get(day_of_week=dow) (day_of_week is unique). -/
def findSchedule (db : Db) (dow : Nat) : Option DaySchedule :=
  db.schedules.find? (fun s => s.day_of_week == dow)

/-- ScheduleService.get_jp_count_for_date: the weekday row default_jp_count,
falling back to 6 when the row is missing. -/
def get_jp_count_for_date (db : Db) (d : Nat) : Nat :=
  match findSchedule db (d % 7) with
  | some s => s.default_jp_count
  | none => 6

/-- ScheduleService.is_school_day: the weekday row is_school_day flag,
defaulting to (weekday is not Sunday) when the row is missing. -/
def is_school_day (db : Db) (d : Nat) : Bool :=
  match findSchedule db (d % 7) with
  | some s => s.is_school_day
  | none => d % 7 != 6

/-- HolidayService.is_holiday: a global holiday on the date short-circuits;
otherwise, when a classroom is supplied, a holiday on the date with
apply_to_all false scoped to that classroom counts. -/
def is_holiday (db : Db) (d : Nat) (classroom : Option Nat) : Bool :=
  if db.holidays.any (fun h => h.hdate == d && h.apply_to_all) then
    true
  else
    match classroom with
    | some c =>
        db.holidays.any (fun h =>
          h.hdate == d && !h.apply_to_all && h.classrooms.contains c)
    | none => false

/-- ReportService._get_school_dates: walk every date from start_date to
end_date inclusive, keeping school days that are not holidays for the
classroom. -/
def get_school_dates (db : Db) (c : Nat) (start_date end_date : Nat) : List Nat :=
  (List.range' start_date (end_date + 1 - start_date)).filter
    (fun d => is_school_day db d && !is_holiday db d (some c))

/-- dict.get on a jp_statuses object (None when the key is absent). -/
def lookupJP (m : JPMap) (k : String) : Option String :=
  match m with
  | [] => none
  | kv :: rest => if kv.1 == k then some kv.2 else lookupJP rest k

/-- The running counters of the report loops: day_h/day_s/day_i/day_a and
the contribution to total_jp. -/
structure Tally where
  h : Nat
  s : Nat
  i : Nat
  a : Nat
  jp : Nat
deriving DecidableEq

def tally0 : Tally := ⟨0, 0, 0, 0, 0⟩

/-- The if/elif chain of the report loops: bump the counter selected by the
status string, leaving the tally unchanged on any other value. -/
def bumpStatus (t : Tally) (st : String) : Tally :=
  if st = "H" then { t with h := t.h + 1 }
  else if st = "S" then { t with s := t.s + 1 }
  else if st = "I" then { t with i := t.i + 1 }
  else if st = "A" then { t with a := t.a + 1 }
  else t

/-- The trailing `if status: total_jp += 1` of the report loops
(Python truthiness: None and the empty string do not count). -/
def bumpJP (t : Tally) (st : String) : Tally :=
  if st = "" then t else { t with jp := t.jp + 1 }

/-- One iteration of `for jp_num in range(1, jp_count + 1)`:
status = jp_statuses.get(str(jp_num), None); missing keys change nothing. -/
def stepJP (m : JPMap) (t : Tally) (jp_num : Nat) : Tally :=
  match lookupJP m (Nat.repr jp_num) with
  | none => t
  | some st => bumpJP (bumpStatus t st) st

/-- The whole per-day loop of generate_class_report / generate_student_report
over period slots 1..jp_count (the iterations commute, so peeling the last
slot reproduces the ascending for loop). -/
def dayTally (m : JPMap) : Nat → Tally
  | 0 => tally0
  | n + 1 => stepJP m (dayTally m n) (n + 1)

/-- attendance_lookup of the reports: the jp_statuses of the unique
DailyAttendance row for (student, date), or the empty mapping. -/
def attendance_lookup (db : Db) (sid d : Nat) : JPMap :=
  match db.attendances.find? (fun a => a.student == sid && a.adate == d) with
  | some a => a.jp_statuses
  | none => []

def addTally (t u : Tally) : Tally :=
  ⟨t.h + u.h, t.s + u.s, t.i + u.i, t.a + u.a, t.jp + u.jp⟩

/-- The per-student accumulation of generate_class_report /
generate_student_report: the outer loop over school dates, each date
contributing its per-day tally to the running totals. -/
def studentTotals (db : Db) (sid : Nat) (dates : List Nat) : Tally :=
  dates.foldl
    (fun t d =>
      addTally t (dayTally (attendance_lookup db sid d) (get_jp_count_for_date db d)))
    tally0

/-- One daily_data entry of generate_class_report. -/
structure DayData where
  ddate : Nat
  jp_count : Nat
  hadir : Nat
  sakit : Nat
  izin : Nat
  alpa : Nat
  has_record : Bool
deriving DecidableEq

def dayDataFor (db : Db) (sid d : Nat) : DayData :=
  let m := attendance_lookup db sid d
  let n := get_jp_count_for_date db d
  let t := dayTally m n
  ⟨d, n, t.h, t.s, t.i, t.a, !m.isEmpty⟩

/-- round(x, 2) of the percentage computations, over rationals. -/
def round2 (x : ℚ) : ℚ := (round (x * 100) : ℤ) / 100

/-- round((num / den * 100), 2) if den > 0 else 0.0 — the percentage
formula shared by both report generators. -/
def pctOf (num den : Nat) : ℚ :=
  if 0 < den then round2 ((num : ℚ) / (den : ℚ) * 100) else 0

/-- One entry of the students list of generate_class_report. -/
structure StudentReport where
  student : Student
  total_hadir : Nat
  total_sakit : Nat
  total_izin : Nat
  total_alpa : Nat
  total_jp : Nat
  attendance_percentage : ℚ
  daily_data : List DayData
deriving DecidableEq

def studentReportFor (db : Db) (st : Student) (dates : List Nat) : StudentReport :=
  let t := studentTotals db st.sid dates
  ⟨st, t.h, t.s, t.i, t.a, t.jp, pctOf t.h t.jp, dates.map (dayDataFor db st.sid)⟩

/-- Lexicographic comparison of names by character code, mirroring the
order_by(name) iteration order of the class report. -/
def strLt : List Char → List Char → Bool
  | [], [] => false
  | [], _ :: _ => true
  | _ :: _, [] => false
  | c :: cs, d :: ds =>
      if c.val < d.val then true
      else if d.val < c.val then false
      else strLt cs ds

def nameLe (x y : Student) : Bool := !(strLt y.name.data x.name.data)

def insertByName (x : Student) : List Student → List Student
  | [] => [x]
  | y :: ys => if nameLe x y then x :: y :: ys else y :: insertByName x ys

def sortByName : List Student → List Student
  | [] => []
  | x :: xs => insertByName x (sortByName xs)

/-- Student.objects.filter(classroom=c, is_active=True).order_by(name). -/
def active_students (db : Db) (c : Nat) : List Student :=
  sortByName (db.students.filter (fun s => s.classroom == c && s.is_active))

/-- The class_summary dict of generate_class_report. -/
structure ClassSummary where
  total_students : Nat
  total_hadir : Nat
  total_sakit : Nat
  total_izin : Nat
  total_alpa : Nat
  total_jp : Nat
  attendance_percentage : ℚ
deriving DecidableEq

/-- The result dict of generate_class_report. -/
structure ClassReport where
  classroom : Nat
  students : List StudentReport
  class_summary : ClassSummary
  dates : List Nat
deriving DecidableEq

/-- ReportService.generate_class_report: the class totals accumulate the
per-student totals inside the same loop that builds the student entries. -/
def generate_class_report (db : Db) (c : Nat) (start_date end_date : Nat) : ClassReport :=
  let school_dates := get_school_dates db c start_date end_date
  let studs := active_students db c
  let reports := studs.map (fun st => studentReportFor db st school_dates)
  let class_total_h := (reports.map (fun r => r.total_hadir)).sum
  let class_total_s := (reports.map (fun r => r.total_sakit)).sum
  let class_total_i := (reports.map (fun r => r.total_izin)).sum
  let class_total_a := (reports.map (fun r => r.total_alpa)).sum
  let class_total_jp := (reports.map (fun r => r.total_jp)).sum
  ⟨c, reports,
    ⟨studs.length, class_total_h, class_total_s, class_total_i, class_total_a,
      class_total_jp, pctOf class_total_h class_total_jp⟩,
    school_dates⟩

/-- The summary dict of generate_student_report. -/
structure StudentSummary where
  total_hadir : Nat
  total_sakit : Nat
  total_izin : Nat
  total_alpa : Nat
  total_jp : Nat
  attendance_percentage : ℚ
  sakit_percentage : ℚ
  izin_percentage : ℚ
  alpa_percentage : ℚ
deriving DecidableEq

/-- ReportService.generate_student_report, restricted to its summary: the
per-date, per-period classification loop is the same one as in the class
report (a missing DailyAttendance row yields status None for every slot,
exactly like the empty mapping), followed by the four percentage formulas. -/
def generate_student_report (db : Db) (st : Student) (start_date end_date : Nat) : StudentSummary :=
  let school_dates := get_school_dates db st.classroom start_date end_date
  let t := studentTotals db st.sid school_dates
  ⟨t.h, t.s, t.i, t.a, t.jp, pctOf t.h t.jp, pctOf t.s t.jp, pctOf t.i t.jp, pctOf t.a t.jp⟩

/-- The (student, date) row predicate of the DailyAttendance unique key. -/
def matchesSD (sid d : Nat) (a : DailyAttendance) : Bool :=
  a.student == sid && a.adate == d

/-- AttendanceService.get_attendance (DailyAttendance.objects.get or None). -/
def get_attendance (db : Db) (sid d : Nat) : Option DailyAttendance :=
  db.attendances.find? (matchesSD sid d)

def setRecord (m : JPMap) (notes : String) (a : DailyAttendance) : DailyAttendance :=
  { a with jp_statuses := m, notes := notes }

/-- DailyAttendance.objects.update_or_create(student, date, defaults=...):
update the existing (student, date) row when one exists, append a new row
otherwise. -/
def upsert_attendance (db : Db) (sid d : Nat) (m : JPMap) (notes : String) : Db :=
  if db.attendances.any (matchesSD sid d) then
    { db with
      attendances :=
        db.attendances.map (fun a => if matchesSD sid d a then setRecord m notes a else a) }
  else
    { db with attendances := db.attendances ++ [⟨sid, d, m, notes⟩] }

inductive SaveError where
  | invalidStatus (jp_num status : String)
  | wrongCount (expected actual : Nat)
deriving DecidableEq

/-- AttendanceService.save_attendance: reject the first status value outside
{H, S, I, A}; then reject an entry count different from
get_jp_count_for_date, naming expected and actual; otherwise upsert. -/
def save_attendance (db : Db) (sid d : Nat) (m : JPMap) (notes : String) :
    Except SaveError Db :=
  match m.find? (fun kv => !(validStatuses.contains kv.2)) with
  | some kv => Except.error (SaveError.invalidStatus kv.1 kv.2)
  | none =>
    let expected := get_jp_count_for_date db d
    if m.length != expected then Except.error (SaveError.wrongCount expected m.length)
    else Except.ok (upsert_attendance db sid d m notes)

/-- One element of the bulk attendance_data list. -/
structure BulkEntry where
  student_id : Nat
  jp_statuses : JPMap
  notes : String
deriving DecidableEq

inductive BulkError where
  | studentNotFound (sid : Nat)
  | wrongClassroom (sid : Nat)
  | invalidStatus (sid : Nat) (jp_num status : String)
deriving DecidableEq

/-- One iteration of AttendanceService.save_bulk_attendance: resolve the
student, check classroom membership, check every status value, then upsert.
Note: the source computes expected_jp_count for the date but never compares
the entry count against it, so no count check appears here either. -/
def processBulkEntry (c d : Nat) (db : Db) (e : BulkEntry) : Except BulkError Db :=
  match db.students.find? (fun s => s.sid == e.student_id) with
  | none => Except.error (BulkError.studentNotFound e.student_id)
  | some st =>
    if st.classroom != c then Except.error (BulkError.wrongClassroom st.sid)
    else
      match e.jp_statuses.find? (fun kv => !(validStatuses.contains kv.2)) with
      | some kv => Except.error (BulkError.invalidStatus st.sid kv.1 kv.2)
      | none => Except.ok (upsert_attendance db e.student_id d e.jp_statuses e.notes)

/-- AttendanceService.save_bulk_attendance under transaction.atomic: entries
are processed in order and the first failure aborts the whole batch, rolling
back every upsert of the submission (the error result carries no state). -/
def save_bulk_attendance (db : Db) (c d : Nat) (entries : List BulkEntry) :
    Except BulkError Db :=
  entries.foldlM (processBulkEntry c d) db

/-- The existing_dates test of get_missing_attendance: some DailyAttendance
row on this date belongs to a student of the classroom (no active filter). -/
def attendanceInClassroomOn (db : Db) (c d : Nat) : Bool :=
  db.attendances.any (fun a =>
    a.adate == d && db.students.any (fun s => s.sid == a.student && s.classroom == c))

/-- AttendanceService.get_missing_attendance: empty when the classroom has
no active student; otherwise the school-day, non-holiday dates of the range
with no attendance row for the classroom. -/
def get_missing_attendance (db : Db) (c : Nat) (start_date end_date : Nat) : List Nat :=
  let active := db.students.filter (fun s => s.classroom == c && s.is_active)
  if active.isEmpty then []
  else
    (List.range' start_date (end_date + 1 - start_date)).filter
      (fun d =>
        is_school_day db d && !is_holiday db d (some c) &&
          !attendanceInClassroomOn db c d)

/-- Holiday.HOLIDAY_TYPES codes. -/
def holiday_types : List String := ["UAS", "UN", "PESANTREN", "LAINNYA"]

/-- The data dict handed to create_holiday / update_holiday; absent keys
are none. -/
structure HolidayData where
  hdate : Option Nat
  name : Option String
  holiday_type : Option String
  apply_to_all : Option Bool
  classroom_ids : Option (List Nat)
  description : Option String
deriving DecidableEq

inductive HolidayError where
  | missingField (field : String)
  | invalidType (t : String)
  | noClassroomSelected
deriving DecidableEq

/-- Python truthiness of an optional string field (absent or empty fails). -/
def presentStr (o : Option String) : Bool :=
  match o with
  | none => false
  | some s => s != ""

/-- HolidayService.create_holiday: required fields, holiday_type membership,
then the classroom-scope invariant (apply_to_all false needs a non-empty
classroom_ids), and only then is the holiday built and persisted; the
classroom set keeps the submitted ids that exist in the Classroom table. -/
def create_holiday (db : Db) (data : HolidayData) : Except HolidayError Holiday :=
  match data.hdate with
  | none => Except.error (HolidayError.missingField "date")
  | some hd =>
    if !(presentStr data.name) then Except.error (HolidayError.missingField "name")
    else if !(presentStr data.holiday_type) then
      Except.error (HolidayError.missingField "holiday_type")
    else
      let nm := data.name.getD ""
      let ht := data.holiday_type.getD ""
      if !(holiday_types.contains ht) then Except.error (HolidayError.invalidType ht)
      else
        let ata := data.apply_to_all.getD true
        let ids := data.classroom_ids.getD []
        if !ata && ids.isEmpty then Except.error HolidayError.noClassroomSelected
        else
          Except.ok
            ⟨hd, nm, ht, ata,
              if !ata && !ids.isEmpty then
                db.classroomIds.filter (fun c => ids.contains c)
              else [],
              data.description.getD ""⟩

/-- The field updates of HolidayService.update_holiday after the
holiday_type check: date, description, apply_to_all, then the classroom set
(cleared when apply_to_all, replaced by the existing submitted ids
otherwise).  No classroom-scope validation happens anywhere on this path. -/
def updateRest (db : Db) (h : Holiday) (data : HolidayData) : Holiday :=
  let h2 := match data.hdate with
    | some d => { h with hdate := d }
    | none => h
  let h3 := match data.description with
    | some ds => { h2 with description := ds }
    | none => h2
  let h4 := match data.apply_to_all with
    | some b => { h3 with apply_to_all := b }
    | none => h3
  match data.classroom_ids with
  | none => h4
  | some ids =>
    if h4.apply_to_all then { h4 with classrooms := [] }
    else { h4 with classrooms := db.classroomIds.filter (fun c => ids.contains c) }

/-- HolidayService.update_holiday: update name, validate and update
holiday_type when supplied, then the remaining fields; the updated holiday
is saved as returned. -/
def update_holiday (db : Db) (holiday : Holiday) (data : HolidayData) :
    Except HolidayError Holiday :=
  let h1 := match data.name with
    | some nm => { holiday with name := nm }
    | none => holiday
  match data.holiday_type with
  | some ht =>
    if !(holiday_types.contains ht) then Except.error (HolidayError.invalidType ht)
    else Except.ok (updateRest db { h1 with holiday_type := ht } data)
  | none => Except.ok (updateRest db h1 data)

/-- Number of stored DailyAttendance rows for a (student, date) pair. -/
def countRecords (db : Db) (sid d : Nat) : Nat :=
  db.attendances.countP (matchesSD sid d)

/-- The successful-result projection of a write operation. -/
def okOf {ε α : Type} (r : Except ε α) : Option α :=
  match r with
  | Except.ok a => some a
  | Except.error _ => none

instance exceptDecEq {ε α : Type} [DecidableEq ε] [DecidableEq α] :
    DecidableEq (Except ε α) := fun x y =>
  match x, y with
  | Except.ok v, Except.ok w =>
    if h : v = w then isTrue (by rw [h]) else isFalse (fun hh => by cases hh; exact h rfl)
  | Except.error v, Except.error w =>
    if h : v = w then isTrue (by rw [h]) else isFalse (fun hh => by cases hh; exact h rfl)
  | Except.ok _, Except.error _ => isFalse (fun hh => by cases hh)
  | Except.error _, Except.ok _ => isFalse (fun hh => by cases hh)

/-- The write-boundary invariant of stored attendance rows: every status
value of every persisted jp_statuses mapping is one of H, S, I, A (enforced
by save_attendance, save_bulk_attendance and DailyAttendance.clean). -/
abbrev validDb (db : Db) : Prop :=
  ∀ att ∈ db.attendances, ∀ kv ∈ att.jp_statuses, kv.2 ∈ validStatuses

/-- The typical weekday configuration of the spec: 6 periods Monday to
Thursday, 4 on Friday, 6 on Saturday, Sunday not a school day. -/
def canonicalSchedules : List DaySchedule :=
  [⟨0, 6, true⟩, ⟨1, 6, true⟩, ⟨2, 6, true⟩, ⟨3, 6, true⟩,
   ⟨4, 4, true⟩, ⟨5, 6, true⟩, ⟨6, 0, false⟩]

def andi : Student := ⟨1, 10, true, "Andi"⟩

def budi : Student := ⟨2, 10, true, "Budi"⟩

def citra : Student := ⟨3, 10, true, "Citra"⟩

/-- Monday record of the end-to-end scenario: H on all six periods. -/
def monRec : JPMap :=
  [("1", "H"), ("2", "H"), ("3", "H"), ("4", "H"), ("5", "H"), ("6", "H")]

/-- Tuesday record of the end-to-end scenario: S on period 2, H elsewhere. -/
def tueRec : JPMap :=
  [("1", "H"), ("2", "S"), ("3", "H"), ("4", "H"), ("5", "H"), ("6", "H")]

/-- One classroom, one active student, records on Monday (date 0) and
Tuesday (date 1): the end-to-end scenario of the spec. -/
def dbEndToEnd : Db :=
  ⟨canonicalSchedules, [], [10], [andi], [⟨1, 0, monRec, ""⟩, ⟨1, 1, tueRec, ""⟩]⟩

/-- A record covering only periods 1 to 4 of a six-period day. -/
def partialRec : JPMap := [("1", "H"), ("2", "H"), ("3", "S"), ("4", "H")]

def dbPartial : Db :=
  ⟨canonicalSchedules, [], [10], [andi], [⟨1, 0, partialRec, ""⟩]⟩

/-- Two students on one six-period Monday: Andi with 6 recorded periods
(5 present), Budi with only 2 recorded periods (0 present). -/
def dbTwoStudents : Db :=
  ⟨canonicalSchedules, [], [10], [budi, andi],
    [⟨1, 0, [("1", "H"), ("2", "H"), ("3", "H"), ("4", "H"), ("5", "H"), ("6", "A")], ""⟩,
     ⟨2, 0, [("1", "A"), ("2", "A")], ""⟩]⟩

/-- A global holiday on Tuesday (date 1) and a holiday on Wednesday
(date 2) scoped to classroom 10 only; classrooms 10 and 20 exist. -/
def dbHolidays : Db :=
  ⟨canonicalSchedules,
    [⟨1, "Libur Umum", "LAINNYA", true, [], ""⟩,
     ⟨2, "UAS Kelas", "UAS", false, [10], ""⟩],
    [10, 20], [andi, ⟨4, 20, true, "Dewi"⟩], [⟨1, 1, monRec, ""⟩]⟩

/-- Three active students of classroom 10, no attendance rows yet. -/
def dbBulk3 : Db :=
  ⟨canonicalSchedules, [], [10], [andi, budi, citra], []⟩

/-- A bulk batch whose second entry has 1 period entry on a 6-period day. -/
def bulkWrongCount : List BulkEntry :=
  [⟨1, monRec, ""⟩, ⟨2, [("1", "H")], ""⟩, ⟨3, monRec, ""⟩]

/-- A bulk batch whose second entry carries the invalid status code X. -/
def bulkBadStatus : List BulkEntry :=
  [⟨1, monRec, ""⟩,
   ⟨2, [("1", "X"), ("2", "H"), ("3", "H"), ("4", "H"), ("5", "H"), ("6", "H")], ""⟩,
   ⟨3, monRec, ""⟩]

/-- Classroom 10 exists but has no students at all. -/
def dbNoStudents : Db := ⟨canonicalSchedules, [], [10], [], []⟩

/-- An existing global holiday row. -/
def liburHoliday : Holiday := ⟨5, "Libur Pesantren", "PESANTREN", true, [], ""⟩

/-- An update submission turning apply_to_all off while selecting no
classroom. -/
def updNoClassroom : HolidayData := ⟨none, none, none, some false, some [], none⟩

/-- A create submission with apply_to_all false and no classroom selected. -/
def createNoClassroom : HolidayData :=
  ⟨some 5, some "Libur Kelas", some "LAINNYA", some false, some [], none⟩

/-- A stored mapping holding the out-of-range period key 7 on a 6-period
day (for example saved before the weekday schedule was reduced). -/
def extraKeyRec : JPMap :=
  [("1", "H"), ("2", "H"), ("3", "S"), ("4", "H"), ("5", "H"), ("6", "A"), ("7", "A")]

/-- The same mapping without the out-of-range key. -/
def cleanKeyRec : JPMap :=
  [("1", "H"), ("2", "H"), ("3", "S"), ("4", "H"), ("5", "H"), ("6", "A")]

def dbExtraKey : Db := ⟨canonicalSchedules, [], [10], [andi], [⟨1, 0, extraKeyRec, ""⟩]⟩

def dbCleanKey : Db := ⟨canonicalSchedules, [], [10], [andi], [⟨1, 0, cleanKeyRec, ""⟩]⟩

/-- A submitted mapping with the invalid status code X on period 2. -/
def badStatusRec : JPMap :=
  [("1", "H"), ("2", "X"), ("3", "H"), ("4", "H"), ("5", "H"), ("6", "H")]

lemma lookupJP_mem {m : JPMap} {k v : String} (h : lookupJP m k = some v) : (k, v) ∈ m := by
  induction m with
  | nil => simp [lookupJP] at h
  | cons kv rest ih =>
    rw [lookupJP] at h
    by_cases hk : kv.1 == k
    · rw [if_pos hk] at h
      have h1 : kv.1 = k := by simpa using hk
      have h2 : kv.2 = v := by simpa using h
      have hkv : kv = (k, v) := by cases kv; simp_all
      rw [hkv]
      exact List.mem_cons_self _ _
    · rw [if_neg hk] at h
      exact List.mem_cons_of_mem _ (ih h)

lemma bump_valid {st : String} (hst : st ∈ validStatuses) (t : Tally) :
    ((bumpJP (bumpStatus t st) st).h + (bumpJP (bumpStatus t st) st).s +
        (bumpJP (bumpStatus t st) st).i + (bumpJP (bumpStatus t st) st).a
      = t.h + t.s + t.i + t.a + 1)
    ∧ (bumpJP (bumpStatus t st) st).jp = t.jp + 1 := by
  fin_cases hst <;> simp [bumpStatus, bumpJP] <;> omega

lemma stepJP_none {m : JPMap} {t : Tally} {k : Nat} (h : lookupJP m (Nat.repr k) = none) :
    stepJP m t k = t := by
  simp [stepJP, h]

lemma stepJP_some {m : JPMap} {t : Tally} {k : Nat} {st : String}
    (h : lookupJP m (Nat.repr k) = some st) :
    stepJP m t k = bumpJP (bumpStatus t st) st := by
  simp [stepJP, h]

/-- Behaviour of the per-day loop on a mapping whose values all lie in
{H, S, I, A}: the four counters sum to the total_jp contribution, which is
at most the period count, reaching it exactly when every period slot
1..jp_count is present in the mapping. -/
lemma dayTally_spec (m : JPMap) (hm : ∀ kv ∈ m, kv.2 ∈ validStatuses) :
    ∀ n : Nat,
      ((dayTally m n).h + (dayTally m n).s + (dayTally m n).i + (dayTally m n).a
        = (dayTally m n).jp)
      ∧ (dayTally m n).jp ≤ n
      ∧ ((dayTally m n).jp = n ↔
          ∀ k, 1 ≤ k → k ≤ n → (lookupJP m (Nat.repr k)).isSome = true) := by
  intro n
  induction n with
  | zero =>
    refine ⟨rfl, Nat.le_refl 0, ?_⟩
    constructor
    · intro _ k h1 h2
      omega
    · intro _
      rfl
  | succ n ih =>
    obtain ⟨ihsum, ihle, ihiff⟩ := ih
    rw [dayTally]
    cases hl : lookupJP m (Nat.repr (n + 1)) with
    | none =>
      rw [stepJP_none hl]
      refine ⟨ihsum, Nat.le_succ_of_le ihle, ?_⟩
      constructor
      · intro hn
        omega
      · intro hall
        have := hall (n + 1) (by omega) (by omega)
        rw [hl] at this
        simp at this
    | some st =>
      have hstv : st ∈ validStatuses := hm _ (lookupJP_mem hl)
      rw [stepJP_some hl]
      obtain ⟨hb1, hb2⟩ := bump_valid hstv (dayTally m n)
      refine ⟨by omega, by omega, ?_⟩
      rw [hb2]
      constructor
      · intro hn k h1 h2
        rcases Nat.lt_or_ge k (n + 1) with hk | hk
        · exact (ihiff.mp (by omega)) k h1 (by omega)
        · have : k = n + 1 := by omega
          rw [this, hl]
          rfl
      · intro hall
        have : (dayTally m n).jp = n := by
          apply ihiff.mpr
          intro k h1 h2
          exact hall k h1 (by omega)
        omega

/-- The per-day loop only consults the keys str(1) .. str(jp_count):
mappings agreeing on those keys tally identically. -/
lemma dayTally_congr (m m2 : JPMap) :
    ∀ n : Nat, (∀ k, 1 ≤ k → k ≤ n → lookupJP m (Nat.repr k) = lookupJP m2 (Nat.repr k)) →
      dayTally m n = dayTally m2 n := by
  intro n
  induction n with
  | zero => intro _; rfl
  | succ n ih =>
    intro hagree
    rw [dayTally, dayTally, ih (fun k h1 h2 => hagree k h1 (by omega)),
      stepJP, stepJP, hagree (n + 1) (by omega) (by omega)]

lemma foldl_addTally_jp (f : Nat → Tally) (dates : List Nat) :
    ∀ init : Tally,
      ((dates.foldl (fun t d => addTally t (f d)) init).jp
        = init.jp + (dates.map (fun d => (f d).jp)).sum) := by
  induction dates with
  | nil => intro init; simp
  | cons d rest ih =>
    intro init
    simp only [List.foldl_cons, List.map_cons, List.sum_cons]
    rw [ih]
    simp [addTally]
    omega

lemma attendance_lookup_valid (db : Db) (hdb : validDb db) (sid d : Nat) :
    ∀ kv ∈ attendance_lookup db sid d, kv.2 ∈ validStatuses := by
  intro kv hkv
  rw [attendance_lookup] at hkv
  cases hf : db.attendances.find? (fun a => a.student == sid && a.adate == d) with
  | none => rw [hf] at hkv; simp at hkv
  | some att =>
    rw [hf] at hkv
    exact hdb att (List.mem_of_find?_eq_some hf) kv hkv

/-- C1: in generate_class_report, for every student and every school date,
the four per-day counters sum to at most the period count of that date,
with equality exactly when every period slot 1..jp_count carries a recorded
status; a period key with no status contributes to none of the four
counters, and the per-student total_jp counts exactly the recorded slots
(so missing slots are excluded from the denominator, not treated as
Absent). -/
theorem generate_class_report_daily_counters (db : Db) (c start_date end_date : Nat)
    (hdb : validDb db) :
    ∀ r ∈ (generate_class_report db c start_date end_date).students,
      (∀ dd ∈ r.daily_data,
        dd.jp_count = get_jp_count_for_date db dd.ddate ∧
        dd.hadir + dd.sakit + dd.izin + dd.alpa ≤ dd.jp_count ∧
        (dd.hadir + dd.sakit + dd.izin + dd.alpa = dd.jp_count ↔
          ∀ k, 1 ≤ k → k ≤ dd.jp_count →
            (lookupJP (attendance_lookup db r.student.sid dd.ddate) (Nat.repr k)).isSome
              = true))
      ∧ r.total_jp =
          (r.daily_data.map (fun dd => dd.hadir + dd.sakit + dd.izin + dd.alpa)).sum := by
  intro r hr
  simp only [generate_class_report, List.mem_map] at hr
  obtain ⟨st, hst, rfl⟩ := hr
  constructor
  · intro dd hdd
    simp only [studentReportFor, List.mem_map] at hdd
    obtain ⟨d, hd, rfl⟩ := hdd
    have hv := attendance_lookup_valid db hdb st.sid d
    obtain ⟨hsum, hle, hiff⟩ :=
      dayTally_spec (attendance_lookup db st.sid d) hv (get_jp_count_for_date db d)
    refine ⟨rfl, ?_, ?_⟩
    · simp only [dayDataFor]
      omega
    · simp only [dayDataFor, studentReportFor]
      rw [hsum]
      exact hiff
  · simp only [studentReportFor, studentTotals]
    rw [foldl_addTally_jp]
    rw [List.map_map]
    have hcg : ∀ d ∈ get_school_dates db c start_date end_date,
        ((fun dd => dd.hadir + dd.sakit + dd.izin + dd.alpa) ∘ dayDataFor db st.sid) d
          = (fun d =>
              (dayTally (attendance_lookup db st.sid d) (get_jp_count_for_date db d)).jp) d := by
      intro d hd
      have hv := attendance_lookup_valid db hdb st.sid d
      obtain ⟨hsum, _, _⟩ :=
        dayTally_spec (attendance_lookup db st.sid d) hv (get_jp_count_for_date db d)
      simp only [Function.comp, dayDataFor]
      exact hsum
    rw [List.map_congr_left hcg]
    simp [tally0]

/-- Witness for C1: the invariant instantiated on a record holding only
periods 1-4 of a six-period Monday; it contributes 4 to total_jp, not 6. -/
theorem generate_class_report_daily_counters_witness :
    validDb dbPartial ∧
    ((dayDataFor dbPartial 1 0).hadir + (dayDataFor dbPartial 1 0).sakit +
        (dayDataFor dbPartial 1 0).izin + (dayDataFor dbPartial 1 0).alpa
      ≤ (dayDataFor dbPartial 1 0).jp_count) ∧
    (dayTally partialRec 6).jp = 4 ∧
    (dayDataFor dbPartial 1 0).jp_count = 6 ∧
    (dayDataFor dbPartial 1 0).hadir + (dayDataFor dbPartial 1 0).sakit +
        (dayDataFor dbPartial 1 0).izin + (dayDataFor dbPartial 1 0).alpa = 4 := by
  have hmem : studentReportFor dbPartial andi (get_school_dates dbPartial 10 0 0)
      ∈ (generate_class_report dbPartial 10 0 0).students := List.mem_singleton.mpr rfl
  have hdd : dayDataFor dbPartial 1 0
      ∈ (studentReportFor dbPartial andi (get_school_dates dbPartial 10 0 0)).daily_data :=
    List.mem_singleton.mpr rfl
  have h := (generate_class_report_daily_counters dbPartial 10 0 0 (by decide) _ hmem).1 _ hdd
  exact ⟨by decide, h.2.1, by decide, by decide, by decide⟩

lemma pct_11_12 : pctOf 11 12 = 9167 / 100 := by
  rw [pctOf, if_pos (by norm_num), round2, round_eq]
  norm_num

lemma pct_5_8 : pctOf 5 8 = 125 / 2 := by
  rw [pctOf, if_pos (by norm_num), round2, round_eq]
  norm_num

lemma pct_5_6 : pctOf 5 6 = 8333 / 100 := by
  rw [pctOf, if_pos (by norm_num), round2, round_eq]
  norm_num

lemma pct_0_2 : pctOf 0 2 = 0 := by
  rw [pctOf, if_pos (by norm_num), round2, round_eq]
  norm_num

/-- C2: in both report generators the attendance percentage is
round(total_hadir / total_jp * 100, 2) when total_jp is positive and the
defined value 0 when total_jp is zero (the functions are total, so no
error or undefined value can occur); on the end-to-end scenario (Monday
all H, Tuesday one S over two six-period days) the totals are 11/1/12 and
the percentage is 91.67. -/
theorem attendance_percentage_formula :
    (∀ db c a b, ∀ r ∈ (generate_class_report db c a b).students,
      r.attendance_percentage =
        if 0 < r.total_jp then round2 ((r.total_hadir : ℚ) / (r.total_jp : ℚ) * 100) else 0)
    ∧ (∀ db st a b,
      (generate_student_report db st a b).attendance_percentage =
        if 0 < (generate_student_report db st a b).total_jp then
          round2 (((generate_student_report db st a b).total_hadir : ℚ)
            / ((generate_student_report db st a b).total_jp : ℚ) * 100)
        else 0)
    ∧ ((generate_class_report dbEndToEnd 10 0 1).students.map
        (fun r => (r.total_hadir, r.total_sakit, r.total_izin, r.total_alpa, r.total_jp)))
        = [(11, 1, 0, 0, 12)]
    ∧ ((generate_class_report dbEndToEnd 10 0 1).students.map
        (fun r => r.attendance_percentage)) = [9167 / 100]
    ∧ (generate_student_report dbEndToEnd andi 0 1).total_hadir = 11
    ∧ (generate_student_report dbEndToEnd andi 0 1).total_sakit = 1
    ∧ (generate_student_report dbEndToEnd andi 0 1).total_jp = 12
    ∧ (generate_student_report dbEndToEnd andi 0 1).attendance_percentage = 9167 / 100 := by
  have hstu : active_students dbEndToEnd 10 = [andi] := by decide
  have ht : studentTotals dbEndToEnd 1 (get_school_dates dbEndToEnd 10 0 1)
      = ⟨11, 1, 0, 0, 12⟩ := by decide
  refine ⟨?_, ?_, by decide, ?_, by decide, by decide, by decide, ?_⟩
  · intro db c a b r hr
    simp only [generate_class_report, List.mem_map] at hr
    obtain ⟨st, _, rfl⟩ := hr
    rfl
  · intro db st a b
    rfl
  · simp only [generate_class_report, hstu, List.map_cons, List.map_nil, studentReportFor,
      andi]
    rw [ht]
    show [pctOf 11 12] = [9167 / 100]
    rw [pct_11_12]
  · simp only [generate_student_report, andi]
    rw [ht]
    show pctOf 11 12 = 9167 / 100
    exact pct_11_12

/-- Witness for C2: the percentage formula instantiated on the end-to-end
scenario report entry. -/
theorem attendance_percentage_formula_witness :
    (studentReportFor dbEndToEnd andi (get_school_dates dbEndToEnd 10 0 1)).attendance_percentage
      = if 0 < (studentReportFor dbEndToEnd andi
            (get_school_dates dbEndToEnd 10 0 1)).total_jp then
          round2 (((studentReportFor dbEndToEnd andi
              (get_school_dates dbEndToEnd 10 0 1)).total_hadir : ℚ)
            / ((studentReportFor dbEndToEnd andi
                (get_school_dates dbEndToEnd 10 0 1)).total_jp : ℚ) * 100)
        else 0 :=
  attendance_percentage_formula.1 dbEndToEnd 10 0 1 _ (List.mem_singleton.mpr rfl)

/-- C3: every class_summary counter of generate_class_report is the sum of
the corresponding per-student totals, and the class percentage applies the
shared formula to the summed counters rather than averaging per-student
percentages; with students of 5-of-6 and 0-of-2 recorded-present periods
the class percentage is 62.5 while the naive average would be 41.665. -/
theorem class_summary_is_sum_of_students :
    (∀ db c a b,
      (generate_class_report db c a b).class_summary.total_hadir =
        ((generate_class_report db c a b).students.map (fun r => r.total_hadir)).sum
      ∧ (generate_class_report db c a b).class_summary.total_sakit =
        ((generate_class_report db c a b).students.map (fun r => r.total_sakit)).sum
      ∧ (generate_class_report db c a b).class_summary.total_izin =
        ((generate_class_report db c a b).students.map (fun r => r.total_izin)).sum
      ∧ (generate_class_report db c a b).class_summary.total_alpa =
        ((generate_class_report db c a b).students.map (fun r => r.total_alpa)).sum
      ∧ (generate_class_report db c a b).class_summary.total_jp =
        ((generate_class_report db c a b).students.map (fun r => r.total_jp)).sum
      ∧ (generate_class_report db c a b).class_summary.attendance_percentage =
          pctOf (((generate_class_report db c a b).students.map (fun r => r.total_hadir)).sum)
            (((generate_class_report db c a b).students.map (fun r => r.total_jp)).sum))
    ∧ (generate_class_report dbTwoStudents 10 0 0).class_summary.total_hadir = 5
    ∧ (generate_class_report dbTwoStudents 10 0 0).class_summary.total_jp = 8
    ∧ (generate_class_report dbTwoStudents 10 0 0).class_summary.attendance_percentage = 125 / 2
    ∧ ((generate_class_report dbTwoStudents 10 0 0).students.map
        (fun r => r.attendance_percentage)) = [8333 / 100, 0]
    ∧ ((generate_class_report dbTwoStudents 10 0 0).students.map
          (fun r => r.attendance_percentage)).sum / 2
        ≠ (generate_class_report dbTwoStudents 10 0 0).class_summary.attendance_percentage := by
  have hstu : active_students dbTwoStudents 10 = [andi, budi] := by decide
  have ht1 : studentTotals dbTwoStudents 1 (get_school_dates dbTwoStudents 10 0 0)
      = ⟨5, 0, 0, 1, 6⟩ := by decide
  have ht2 : studentTotals dbTwoStudents 2 (get_school_dates dbTwoStudents 10 0 0)
      = ⟨0, 0, 0, 2, 2⟩ := by decide
  have hpcts : ((generate_class_report dbTwoStudents 10 0 0).students.map
      (fun r => r.attendance_percentage)) = [8333 / 100, 0] := by
    simp only [generate_class_report, hstu, List.map_cons, List.map_nil, studentReportFor,
      andi, budi]
    rw [ht1, ht2]
    show [pctOf 5 6, pctOf 0 2] = [8333 / 100, 0]
    rw [pct_5_6, pct_0_2]
  have hcp : (generate_class_report dbTwoStudents 10 0 0).class_summary.attendance_percentage
      = 125 / 2 := by
    simp only [generate_class_report, hstu, List.map_cons, List.map_nil, studentReportFor,
      andi, budi]
    rw [ht1, ht2]
    show pctOf (5 + (0 + 0)) (6 + (2 + 0)) = 125 / 2
    norm_num [pct_5_8]
  refine ⟨fun db c a b => ⟨rfl, rfl, rfl, rfl, rfl, rfl⟩, by decide, by decide, hcp, hpcts, ?_⟩
  rw [hpcts, hcp]
  norm_num

/-- Witness for C3: the summed-counter equations instantiated on the
two-student classroom. -/
theorem class_summary_is_sum_of_students_witness :
    (generate_class_report dbTwoStudents 10 0 0).class_summary.total_hadir
      = ((generate_class_report dbTwoStudents 10 0 0).students.map
          (fun r => r.total_hadir)).sum
    ∧ (generate_class_report dbTwoStudents 10 0 0).class_summary.total_jp
      = ((generate_class_report dbTwoStudents 10 0 0).students.map
          (fun r => r.total_jp)).sum :=
  ⟨(class_summary_is_sum_of_students.1 dbTwoStudents 10 0 0).1,
    (class_summary_is_sum_of_students.1 dbTwoStudents 10 0 0).2.2.2.2.1⟩

lemma mem_get_school_dates (db : Db) (c start_date end_date d : Nat) :
    d ∈ get_school_dates db c start_date end_date ↔
      (start_date ≤ d ∧ d ≤ end_date ∧ is_school_day db d = true
        ∧ is_holiday db d (some c) = false) := by
  rw [get_school_dates, List.mem_filter, List.mem_range'_1]
  constructor
  · rintro ⟨⟨h1, h2⟩, h3⟩
    simp only [Bool.and_eq_true, Bool.not_eq_true'] at h3
    exact ⟨h1, by omega, h3.1, h3.2⟩
  · rintro ⟨h1, h2, h3, h4⟩
    exact ⟨⟨h1, by omega⟩, by simp [h3, h4]⟩

lemma is_holiday_iff (db : Db) (c d : Nat) :
    is_holiday db d (some c) = true ↔
      ((∃ h ∈ db.holidays, h.hdate = d ∧ h.apply_to_all = true)
        ∨ (∃ h ∈ db.holidays, h.hdate = d ∧ h.apply_to_all = false ∧ c ∈ h.classrooms)) := by
  rw [is_holiday]
  cases hg : db.holidays.any (fun h => h.hdate == d && h.apply_to_all) with
  | true =>
    simp only [hg, if_true]
    constructor
    · intro _
      left
      obtain ⟨h, hmem, hp⟩ := List.any_eq_true.mp hg
      simp only [Bool.and_eq_true, beq_iff_eq] at hp
      exact ⟨h, hmem, hp.1, hp.2⟩
    · intro _
      trivial
  | false =>
    rw [if_neg (by simp [hg])]
    show (db.holidays.any fun h =>
        h.hdate == d && !h.apply_to_all && h.classrooms.contains c) = true ↔ _
    rw [List.any_eq_true]
    constructor
    · rintro ⟨h, hmem, hp⟩
      simp only [Bool.and_eq_true, Bool.not_eq_true', beq_iff_eq] at hp
      right
      refine ⟨h, hmem, hp.1.1, hp.1.2, ?_⟩
      simpa using hp.2
    · rintro (⟨h, hmem, hd, hp⟩ | ⟨h, hmem, hd, hp, hc⟩)
      · exfalso
        have := List.any_eq_false.mp hg h hmem
        simp [hd, hp] at this
      · exact ⟨h, hmem, by simp [hd, hp, hc]⟩

lemma sorted_school_dates (db : Db) (c start_date end_date : Nat) :
    List.Pairwise (· < ·) (get_school_dates db c start_date end_date) :=
  List.Pairwise.sublist (List.filter_sublist _) (List.pairwise_lt_range' _ _)

/-- C4: the school-date list contains, in strictly ascending order, exactly
the dates of the inclusive range that are school days and not holidays for
the classroom; is_holiday holds exactly when a global holiday or a
classroom-scoped holiday exists on the date; consequently a date with a
global holiday is excluded from the list for every classroom and range. -/
theorem school_dates_exactly (db : Db) :
    (∀ c start_date end_date d,
      d ∈ get_school_dates db c start_date end_date ↔
        (start_date ≤ d ∧ d ≤ end_date ∧ is_school_day db d = true
          ∧ is_holiday db d (some c) = false))
    ∧ (∀ c start_date end_date,
        List.Pairwise (· < ·) (get_school_dates db c start_date end_date))
    ∧ (∀ c d, is_holiday db d (some c) = true ↔
        ((∃ h ∈ db.holidays, h.hdate = d ∧ h.apply_to_all = true)
          ∨ (∃ h ∈ db.holidays, h.hdate = d ∧ h.apply_to_all = false ∧ c ∈ h.classrooms)))
    ∧ (∀ d, (∃ h ∈ db.holidays, h.hdate = d ∧ h.apply_to_all = true) →
        ∀ c start_date end_date, d ∉ get_school_dates db c start_date end_date) := by
  refine ⟨fun c a b d => mem_get_school_dates db c a b d,
    fun c a b => sorted_school_dates db c a b,
    fun c d => is_holiday_iff db c d, ?_⟩
  intro d hex c a b hmem
  have h1 := (mem_get_school_dates db c a b d).mp hmem
  have h2 : is_holiday db d (some c) = true := (is_holiday_iff db c d).mpr (Or.inl hex)
  rw [h1.2.2.2] at h2
  exact Bool.false_ne_true h2

/-- Witness for C4: with a global holiday on Tuesday and a holiday scoped
to classroom 10 on Wednesday, the lists come out as expected and Tuesday is
excluded for both classrooms even though an attendance row exists on it. -/
theorem school_dates_exactly_witness :
    get_school_dates dbHolidays 10 0 4 = [0, 3, 4]
    ∧ get_school_dates dbHolidays 20 0 4 = [0, 2, 3, 4]
    ∧ (1 ∉ get_school_dates dbHolidays 10 0 4)
    ∧ (1 ∉ get_school_dates dbHolidays 20 0 4)
    ∧ (get_attendance dbHolidays 1 1).isSome = true := by
  refine ⟨by decide, by decide, ?_, ?_, by decide⟩
  · exact (school_dates_exactly dbHolidays).2.2.2 1
      ⟨⟨1, "Libur Umum", "LAINNYA", true, [], ""⟩, by decide, rfl, rfl⟩ 10 0 4
  · exact (school_dates_exactly dbHolidays).2.2.2 1
      ⟨⟨1, "Libur Umum", "LAINNYA", true, [], ""⟩, by decide, rfl, rfl⟩ 20 0 4

lemma active_isEmpty_false (db : Db) (c : Nat)
    (hact : db.students.filter (fun s => s.classroom == c && s.is_active) ≠ []) :
    (db.students.filter (fun s => s.classroom == c && s.is_active)).isEmpty = false := by
  cases hl : (db.students.filter (fun s => s.classroom == c && s.is_active)).isEmpty
  · rfl
  · exact absurd (List.isEmpty_iff.mp hl) hact

/-- C7 (amended): when the classroom has at least one active student,
get_missing_attendance returns, in ascending order, exactly the dates of
the school-date list carrying no attendance row of the classroom, and every
returned date lies in the school-date list.  (Without the active-student
hypothesis the function returns the empty list instead — see the
counterexample.) -/
theorem get_missing_attendance_amended (db : Db) (c start_date end_date : Nat)
    (hact : db.students.filter (fun s => s.classroom == c && s.is_active) ≠ []) :
    (∀ d, d ∈ get_missing_attendance db c start_date end_date ↔
      (d ∈ get_school_dates db c start_date end_date
        ∧ attendanceInClassroomOn db c d = false))
    ∧ List.Pairwise (· < ·) (get_missing_attendance db c start_date end_date)
    ∧ ∀ d ∈ get_missing_attendance db c start_date end_date,
        d ∈ get_school_dates db c start_date end_date := by
  have hne := active_isEmpty_false db c hact
  have hmem : ∀ d, d ∈ get_missing_attendance db c start_date end_date ↔
      (d ∈ get_school_dates db c start_date end_date
        ∧ attendanceInClassroomOn db c d = false) := by
    intro d
    rw [get_missing_attendance]
    simp only [hne, Bool.false_eq_true, if_false, List.mem_filter, List.mem_range'_1,
      mem_get_school_dates]
    constructor
    · rintro ⟨⟨h1, h2⟩, h3⟩
      simp only [Bool.and_eq_true, Bool.not_eq_true'] at h3
      exact ⟨⟨h1, by omega, h3.1.1, h3.1.2⟩, h3.2⟩
    · rintro ⟨⟨h1, h2, h3, h4⟩, h5⟩
      exact ⟨⟨h1, by omega⟩, by simp [h3, h4, h5]⟩
  refine ⟨hmem, ?_, fun d hd => ((hmem d).mp hd).1⟩
  rw [get_missing_attendance]
  simp only [hne, Bool.false_eq_true, if_false]
  exact List.Pairwise.sublist (List.filter_sublist _) (List.pairwise_lt_range' _ _)

/-- Witness for C7: over Monday to Wednesday, the end-to-end classroom has
records on Monday and Tuesday only, so exactly Wednesday is missing. -/
theorem get_missing_attendance_witness :
    get_missing_attendance dbEndToEnd 10 0 2 = [2]
    ∧ (2 ∈ get_missing_attendance dbEndToEnd 10 0 2)
    ∧ (0 ∉ get_missing_attendance dbEndToEnd 10 0 2) := by
  refine ⟨by decide, ?_, ?_⟩
  · exact ((get_missing_attendance_amended dbEndToEnd 10 0 2 (by decide)).1 2).mpr
      ⟨by decide, by decide⟩
  · intro hmem
    have := ((get_missing_attendance_amended dbEndToEnd 10 0 2 (by decide)).1 0).mp hmem
    exact absurd this.2 (by decide)

/-- Counterexample for C7 as stated: for a classroom with no active
student, Monday is a school date with zero attendance rows, yet
get_missing_attendance returns the empty list rather than that date. -/
theorem get_missing_attendance_counterexample :
    get_missing_attendance dbNoStudents 10 0 0 = []
    ∧ get_school_dates dbNoStudents 10 0 0 = [0]
    ∧ attendanceInClassroomOn dbNoStudents 10 0 = false
    ∧ ¬ (∀ d, d ∈ get_missing_attendance dbNoStudents 10 0 0 ↔
        (d ∈ get_school_dates dbNoStudents 10 0 0
          ∧ attendanceInClassroomOn dbNoStudents 10 d = false)) := by
  refine ⟨by decide, by decide, by decide, ?_⟩
  intro hall
  have := (hall 0).mpr ⟨by decide, by decide⟩
  exact absurd this (by decide)

lemma matchesSD_setRecord (sid d : Nat) (m : JPMap) (notes : String) (a : DailyAttendance) :
    matchesSD sid d (setRecord m notes a) = matchesSD sid d a := rfl

lemma find_update (sid d : Nat) (m : JPMap) (notes : String) :
    ∀ l : List DailyAttendance, l.any (matchesSD sid d) = true →
      ∃ a0, (l.map (fun a => if matchesSD sid d a then setRecord m notes a else a)).find?
          (matchesSD sid d) = some (setRecord m notes a0) ∧ matchesSD sid d a0 = true := by
  intro l
  induction l with
  | nil => intro h; simp at h
  | cons a rest ih =>
    intro h
    cases hpa : matchesSD sid d a with
    | true =>
      refine ⟨a, ?_, hpa⟩
      simp only [List.map_cons]
      rw [if_pos hpa]
      rw [List.find?_cons_of_pos _ (by rw [matchesSD_setRecord]; exact hpa)]
    | false =>
      have hrest : rest.any (matchesSD sid d) = true := by
        simp only [List.any_cons, hpa, Bool.false_or] at h
        exact h
      obtain ⟨a0, hfind, ha0⟩ := ih hrest
      refine ⟨a0, ?_, ha0⟩
      simp only [List.map_cons]
      rw [if_neg (by simp [hpa])]
      rw [List.find?_cons_of_neg _ (by simp [hpa])]
      exact hfind

lemma countP_update (sid d : Nat) (m : JPMap) (notes : String) :
    ∀ l : List DailyAttendance,
      (l.map (fun a => if matchesSD sid d a then setRecord m notes a else a)).countP
          (matchesSD sid d)
        = l.countP (matchesSD sid d) := by
  intro l
  induction l with
  | nil => rfl
  | cons a rest ih =>
    cases hpa : matchesSD sid d a with
    | true =>
      simp only [List.map_cons]
      rw [if_pos hpa]
      simp only [List.countP_cons, ih, matchesSD_setRecord, hpa]
    | false =>
      simp only [List.map_cons]
      rw [if_neg (by simp [hpa])]
      simp only [List.countP_cons, ih, hpa]

lemma upsert_get (db : Db) (sid d : Nat) (m : JPMap) (notes : String) :
    ∃ a0, get_attendance (upsert_attendance db sid d m notes) sid d = some a0
      ∧ a0.student = sid ∧ a0.adate = d ∧ a0.jp_statuses = m ∧ a0.notes = notes := by
  rw [upsert_attendance]
  cases hany : db.attendances.any (matchesSD sid d) with
  | true =>
    rw [if_pos rfl]
    obtain ⟨a0, hfind, ha0⟩ := find_update sid d m notes db.attendances hany
    simp only [matchesSD, Bool.and_eq_true, beq_iff_eq] at ha0
    exact ⟨setRecord m notes a0, hfind, ha0.1, ha0.2, rfl, rfl⟩
  | false =>
    rw [if_neg (by simp)]
    refine ⟨(⟨sid, d, m, notes⟩ : DailyAttendance), ?_, rfl, rfl, rfl, rfl⟩
    show (db.attendances ++ [(⟨sid, d, m, notes⟩ : DailyAttendance)]).find? (matchesSD sid d)
      = _
    rw [List.find?_append]
    have h1 : db.attendances.find? (matchesSD sid d) = none := by
      rw [List.find?_eq_none]
      intro a ha
      exact List.any_eq_false.mp hany a ha
    rw [h1]
    rw [List.find?_cons_of_pos _ (by simp [matchesSD])]
    rfl

lemma upsert_count (db : Db) (sid d : Nat) (m : JPMap) (notes : String)
    (hle : countRecords db sid d ≤ 1) :
    countRecords (upsert_attendance db sid d m notes) sid d = 1 := by
  rw [countRecords, upsert_attendance]
  cases hany : db.attendances.any (matchesSD sid d) with
  | true =>
    rw [if_pos rfl]
    show (db.attendances.map
        (fun a => if matchesSD sid d a then setRecord m notes a else a)).countP
          (matchesSD sid d) = 1
    rw [countP_update]
    obtain ⟨a, ha, hpa⟩ := List.any_eq_true.mp hany
    have hpos : 0 < db.attendances.countP (matchesSD sid d) :=
      List.countP_pos_iff.mpr ⟨a, ha, hpa⟩
    have hle2 : db.attendances.countP (matchesSD sid d) ≤ 1 := hle
    omega
  | false =>
    rw [if_neg (by simp)]
    show (db.attendances ++ [(⟨sid, d, m, notes⟩ : DailyAttendance)]).countP (matchesSD sid d)
      = 1
    rw [List.countP_append]
    have h0 : db.attendances.countP (matchesSD sid d) = 0 :=
      List.countP_eq_zero.mpr (List.any_eq_false.mp hany)
    rw [h0]
    simp [List.countP_cons, matchesSD]

lemma upsert_schedules (db : Db) (sid d : Nat) (m : JPMap) (notes : String) :
    (upsert_attendance db sid d m notes).schedules = db.schedules := by
  rw [upsert_attendance]
  split <;> rfl

lemma get_jp_upsert (db : Db) (sid d : Nat) (m : JPMap) (notes : String) (e : Nat) :
    get_jp_count_for_date (upsert_attendance db sid d m notes) e
      = get_jp_count_for_date db e := by
  rw [get_jp_count_for_date, get_jp_count_for_date, findSchedule, findSchedule,
    upsert_schedules]

lemma save_ok (db : Db) (sid d : Nat) (m : JPMap) (notes : String)
    (hval : ∀ kv ∈ m, kv.2 ∈ validStatuses)
    (hlen : m.length = get_jp_count_for_date db d) :
    save_attendance db sid d m notes = Except.ok (upsert_attendance db sid d m notes) := by
  have hnone : m.find? (fun kv => !(validStatuses.contains kv.2)) = none := by
    rw [List.find?_eq_none]
    intro kv hkv
    simp [hval kv hkv]
  rw [save_attendance]
  simp only [hnone]
  simp only [hlen, bne_self_eq_false, Bool.false_eq_true, if_false]

/-- C5: save_attendance rejects any mapping containing a status outside
{H, S, I, A} with an invalid-status error, rejects a mapping whose entry
count differs from the period count of the date with an error naming
expected and actual counts, and on success stores exactly the submitted
mapping under the (student, date) key. -/
theorem save_attendance_validation (db : Db) (sid d : Nat) (m : JPMap) (notes : String) :
    ((∃ kv ∈ m, kv.2 ∉ validStatuses) →
      ∃ kv ∈ m, kv.2 ∉ validStatuses
        ∧ save_attendance db sid d m notes
            = Except.error (SaveError.invalidStatus kv.1 kv.2))
    ∧ ((∀ kv ∈ m, kv.2 ∈ validStatuses) → m.length ≠ get_jp_count_for_date db d →
      save_attendance db sid d m notes
        = Except.error (SaveError.wrongCount (get_jp_count_for_date db d) m.length))
    ∧ ((∀ kv ∈ m, kv.2 ∈ validStatuses) → m.length = get_jp_count_for_date db d →
      ∃ db2, save_attendance db sid d m notes = Except.ok db2
        ∧ ∃ a0, get_attendance db2 sid d = some a0
          ∧ a0.student = sid ∧ a0.adate = d ∧ a0.jp_statuses = m ∧ a0.notes = notes) := by
  refine ⟨?_, ?_, ?_⟩
  · intro hex
    have hsome : (m.find? (fun kv => !(validStatuses.contains kv.2))).isSome := by
      rw [List.find?_isSome]
      obtain ⟨kv, hkv, hv⟩ := hex
      exact ⟨kv, hkv, by simp [hv]⟩
    obtain ⟨kv0, hf⟩ := Option.isSome_iff_exists.mp hsome
    have hkv0m : kv0 ∈ m := List.mem_of_find?_eq_some hf
    have hkv0v : kv0.2 ∉ validStatuses := by
      have := List.find?_some hf
      simpa using this
    refine ⟨kv0, hkv0m, hkv0v, ?_⟩
    rw [save_attendance, hf]
  · intro hval hne
    have hnone : m.find? (fun kv => !(validStatuses.contains kv.2)) = none := by
      rw [List.find?_eq_none]
      intro kv hkv
      simp [hval kv hkv]
    rw [save_attendance]
    simp only [hnone]
    rw [if_pos (bne_iff_ne.mpr hne)]
  · intro hval hlen
    exact ⟨_, save_ok db sid d m notes hval hlen, upsert_get db sid d m notes⟩

/-- Witness for C5: the three validation branches on concrete submissions
for Wednesday (a six-period day): a mapping with status X errors, a
four-entry mapping errors naming 6 expected versus 4 actual, and the full
Monday mapping is stored as submitted. -/
theorem save_attendance_validation_witness :
    (∃ kv ∈ badStatusRec, kv.2 ∉ validStatuses
      ∧ save_attendance dbEndToEnd 1 2 badStatusRec ""
          = Except.error (SaveError.invalidStatus kv.1 kv.2))
    ∧ save_attendance dbEndToEnd 1 2 partialRec ""
        = Except.error (SaveError.wrongCount 6 4)
    ∧ (∃ db2, save_attendance dbEndToEnd 1 2 monRec "" = Except.ok db2
        ∧ ∃ a0, get_attendance db2 1 2 = some a0
          ∧ a0.student = 1 ∧ a0.adate = 2 ∧ a0.jp_statuses = monRec ∧ a0.notes = "") := by
  refine ⟨(save_attendance_validation dbEndToEnd 1 2 badStatusRec "").1 (by decide), ?_,
    (save_attendance_validation dbEndToEnd 1 2 monRec "").2.2 (by decide) (by decide)⟩
  exact (save_attendance_validation dbEndToEnd 1 2 partialRec "").2.1 (by decide) (by decide)

/-- C9: under the uniqueness invariant of the (student, date) key, saving
the same mapping twice succeeds, leaves exactly one stored row for the
pair, and the stored mapping is the second submission. -/
theorem save_attendance_idempotent (db : Db) (sid d : Nat) (m : JPMap) (notes : String)
    (hval : ∀ kv ∈ m, kv.2 ∈ validStatuses)
    (hlen : m.length = get_jp_count_for_date db d)
    (huniq : countRecords db sid d ≤ 1) :
    ∃ db1 db2, save_attendance db sid d m notes = Except.ok db1
      ∧ save_attendance db1 sid d m notes = Except.ok db2
      ∧ countRecords db2 sid d = 1
      ∧ ∃ a0, get_attendance db2 sid d = some a0 ∧ a0.jp_statuses = m := by
  have h1 := save_ok db sid d m notes hval hlen
  have hlen1 : m.length = get_jp_count_for_date (upsert_attendance db sid d m notes) d := by
    rw [get_jp_upsert]
    exact hlen
  have h2 := save_ok (upsert_attendance db sid d m notes) sid d m notes hval hlen1
  have hc1 : countRecords (upsert_attendance db sid d m notes) sid d = 1 :=
    upsert_count db sid d m notes huniq
  have hc2 : countRecords
      (upsert_attendance (upsert_attendance db sid d m notes) sid d m notes) sid d = 1 :=
    upsert_count (upsert_attendance db sid d m notes) sid d m notes (by omega)
  obtain ⟨a0, hg, _, _, hjm, _⟩ :=
    upsert_get (upsert_attendance db sid d m notes) sid d m notes
  exact ⟨upsert_attendance db sid d m notes, _, h1, h2, hc2, a0, hg, hjm⟩

/-- Witness for C9: saving the Monday mapping twice over the existing
Monday row of the end-to-end database keeps exactly one row. -/
theorem save_attendance_idempotent_witness :
    countRecords dbEndToEnd 1 0 ≤ 1
    ∧ (∃ db1 db2, save_attendance dbEndToEnd 1 0 monRec "" = Except.ok db1
        ∧ save_attendance db1 1 0 monRec "" = Except.ok db2
        ∧ countRecords db2 1 0 = 1
        ∧ ∃ a0, get_attendance db2 1 0 = some a0 ∧ a0.jp_statuses = monRec) :=
  ⟨by decide, save_attendance_idempotent dbEndToEnd 1 0 monRec "" (by decide) (by decide)
    (by decide)⟩

/-- C6: save_bulk_attendance never compares entry counts against the period
count of the date (the source computes expected_jp_count and never reads
it): a 3-entry batch whose second entry has a single period entry on a
six-period day succeeds and persists all three rows, including the
short one, contradicting the all-or-nothing-on-wrong-count requirement;
an invalid status code, by contrast, does abort the whole batch. -/
theorem save_bulk_attendance_count_unchecked :
    get_jp_count_for_date dbBulk3 0 = 6
    ∧ (bulkWrongCount.map (fun e => e.jp_statuses.length)) = [6, 1, 6]
    ∧ (okOf (save_bulk_attendance dbBulk3 10 0 bulkWrongCount)).map
        (fun db => (countRecords db 1 0, countRecords db 2 0, countRecords db 3 0))
        = some (1, 1, 1)
    ∧ (okOf (save_bulk_attendance dbBulk3 10 0 bulkWrongCount)).map
        (fun db => (get_attendance db 2 0).map (fun a => a.jp_statuses))
        = some (some [("1", "H")])
    ∧ save_bulk_attendance dbBulk3 10 0 bulkBadStatus
        = Except.error (BulkError.invalidStatus 2 "1" "X")
    ∧ okOf (save_bulk_attendance dbBulk3 10 0 bulkBadStatus) = none := by
  refine ⟨by decide, by decide, by decide, by decide, by decide, by decide⟩

/-- Counterexample for C8 as stated: update_holiday accepts turning
apply_to_all off while selecting no classroom, returning success and
persisting a holiday with apply_to_all false and an empty classroom set. -/
theorem update_holiday_skips_scope_validation :
    update_holiday dbNoStudents liburHoliday updNoClassroom
      = Except.ok ⟨5, "Libur Pesantren", "PESANTREN", false, [], ""⟩
    ∧ (okOf (update_holiday dbNoStudents liburHoliday updNoClassroom)).map
        (fun h => (h.apply_to_all, h.classrooms)) = some (false, []) := by
  refine ⟨by decide, by decide⟩

/-- C8 (amended): only the creation operation enforces the classroom-scope
invariant: create_holiday with apply_to_all false and no classroom id
always fails with a validation error, so no invalid holiday is persisted by
creation; the update operation performs no such check. -/
theorem create_holiday_requires_classrooms (db : Db) (data : HolidayData)
    (hfalse : data.apply_to_all = some false)
    (hempty : data.classroom_ids.getD [] = []) :
    ∃ e, create_holiday db data = Except.error e := by
  rw [create_holiday]
  cases hd : data.hdate with
  | none => exact ⟨_, rfl⟩
  | some hdv =>
    dsimp only
    cases hn : presentStr data.name with
    | false =>
      refine ⟨HolidayError.missingField "name", ?_⟩
      rw [if_pos (by simp [hn])]
    | true =>
      rw [if_neg (by simp [hn])]
      cases hht : presentStr data.holiday_type with
      | false =>
        refine ⟨HolidayError.missingField "holiday_type", ?_⟩
        rw [if_pos (by simp [hht])]
      | true =>
        rw [if_neg (by simp [hht])]
        cases hv : holiday_types.contains (data.holiday_type.getD "") with
        | false =>
          refine ⟨HolidayError.invalidType (data.holiday_type.getD ""), ?_⟩
          rw [if_pos (by simp [hv])]
        | true =>
          refine ⟨HolidayError.noClassroomSelected, ?_⟩
          rw [if_neg (by simp [hv])]
          rw [if_pos (by simp [hfalse, hempty])]

/-- Witness for C8: the concrete create submission with apply_to_all false
and an empty classroom list fails with the no-classroom-selected error. -/
theorem create_holiday_requires_classrooms_witness :
    createNoClassroom.apply_to_all = some false
    ∧ createNoClassroom.classroom_ids.getD [] = []
    ∧ create_holiday dbNoStudents createNoClassroom
        = Except.error HolidayError.noClassroomSelected
    ∧ ∃ e, create_holiday dbNoStudents createNoClassroom = Except.error e :=
  ⟨by decide, by decide, by decide,
    create_holiday_requires_classrooms dbNoStudents createNoClassroom (by decide) (by decide)⟩

/-- C10: both report generators consult only the period keys str(1) ..
str(jp_count); any mapping entry with an out-of-range key (such as key 7
stored on a six-period day) changes nothing: the per-day loop is invariant
under such entries, and the class and student reports over a record with
the extra key equal those over the record without it, with total_jp 6. -/
theorem out_of_range_keys_ignored :
    (∀ m m2 n, (∀ k, 1 ≤ k → k ≤ n → lookupJP m (Nat.repr k) = lookupJP m2 (Nat.repr k)) →
      dayTally m n = dayTally m2 n)
    ∧ generate_class_report dbExtraKey 10 0 0 = generate_class_report dbCleanKey 10 0 0
    ∧ generate_student_report dbExtraKey andi 0 0 = generate_student_report dbCleanKey andi 0 0
    ∧ lookupJP extraKeyRec "7" = some "A"
    ∧ get_jp_count_for_date dbExtraKey 0 = 6
    ∧ ((generate_class_report dbExtraKey 10 0 0).students.map (fun r => r.total_jp)) = [6] := by
  have h1 : get_school_dates dbExtraKey 10 0 0 = [0] := by decide
  have h2 : get_school_dates dbCleanKey 10 0 0 = [0] := by decide
  have h3 : active_students dbExtraKey 10 = [andi] := by decide
  have h4 : active_students dbCleanKey 10 = [andi] := by decide
  have h5 : studentTotals dbExtraKey 1 [0] = ⟨4, 1, 0, 1, 6⟩ := by decide
  have h6 : studentTotals dbCleanKey 1 [0] = ⟨4, 1, 0, 1, 6⟩ := by decide
  have h7 : dayDataFor dbExtraKey 1 0 = dayDataFor dbCleanKey 1 0 := by decide
  refine ⟨fun m m2 n h => dayTally_congr m m2 n h, ?_, ?_, by decide, by decide, by decide⟩
  · simp only [generate_class_report, h1, h2, h3, h4, List.map_cons, List.map_nil,
      studentReportFor, andi]
    rw [h5, h6, h7]
  · simp only [generate_student_report, andi, h1, h2]
    rw [h5, h6]

/-- Witness for C10: the loop-congruence applied to the concrete mappings
with and without the out-of-range key 7 on a six-period day. -/
theorem out_of_range_keys_ignored_witness :
    (∀ k, 1 ≤ k → k ≤ 6 →
      lookupJP extraKeyRec (Nat.repr k) = lookupJP cleanKeyRec (Nat.repr k))
    ∧ dayTally extraKeyRec 6 = dayTally cleanKeyRec 6 :=
  ⟨by decide, out_of_range_keys_ignored.1 extraKeyRec cleanKeyRec 6 (by decide)⟩

end Rekap
